import Mathlib

/-!
Verification development for the `simdjson_talks` chart-generation scripts.

The repository consists of four standalone Python scripts, each of which
hardcodes short parallel lists of labels, numeric values and colors, builds
one or more bar (or pie) charts through matplotlib, annotates each bar with
a formatted value label, and writes PNG files to disk.

The embedding below models:
* the data model (bars, text annotations, images, an abstract filesystem);
* the single rendering pipeline the scripts repeat (`render`), modelled
  from the spec since the repository only inlines concrete instances of it;
* every concrete dataset, axis limit, label format and output path that
  appears in the source files, under one namespace per script.
-/

namespace Charts

/-- A text annotation on a chart: `pos` is the coordinate along the value
axis (x for horizontal bars, y for vertical bars), `cross` the coordinate
along the category axis (the bar index), `content` the displayed string. -/
structure TextAnnot where
  pos : ℚ
  cross : ℚ
  content : String
  deriving DecidableEq

/-- One bar of a bar chart, with its matplotlib patch styling. -/
structure Bar where
  label : String
  value : ℚ
  color : String
  edgecolor : String
  linewidth : ℚ
  deriving DecidableEq

/-- Failure modes of one chart render, following the spec's taxonomy:
`invalidSeries` models the shape-mismatch ValueError matplotlib's bar
functions raise when the label and value lists disagree in length;
`ioFailure` models a failure of `savefig` (unwritable output location). -/
inductive RenderError where
  | invalidSeries
  | ioFailure
  deriving DecidableEq

/-- The abstract content of one rendered figure. -/
structure Image where
  bars : List Bar
  texts : List TextAnnot
  title : String
  axisLabel : String
  lim : Option (ℚ × ℚ)
  deriving DecidableEq

/-- A file written by `savefig`: its format (inferred from the extension of
the output path, as matplotlib does) and the figure content. -/
structure SavedFile where
  format : String
  image : Image
  deriving DecidableEq

/-- The filesystem, abstracted as a map from paths to file contents. -/
def FileSystem : Type := String → Option SavedFile

/-- The empty filesystem. -/
def emptyFs : FileSystem := fun _ => none

/-- Output format inference of `savefig`: driven by the path extension.
Every path in the repository ends in `.png`. -/
def inferFormat (path : String) : String :=
  if path.endsWith ".png" then "png" else "other"

/-- `plt.savefig`: write the figure at `path`, silently replacing any file
already there and leaving every other path untouched. -/
def savefig (fs : FileSystem) (path : String) (img : Image) : FileSystem :=
  fun p => if p = path then some ⟨inferFormat path, img⟩ else fs p

/-- Modelled from the spec: the `ChartSpec` value object (title, axis
label, value-range limits, highlight flags, optional descending sort), plus
the per-chart cosmetic parameters the scripts inline: the value-label
formatter, the decorative marker appended to highlighted labels, the offset
that places each value label beyond its bar's extent, and the edge styling
of plain and highlighted bars. -/
structure ChartSpec where
  title : String
  axisLabel : String
  lim : Option (ℚ × ℚ)
  highlight : List String
  sortDescending : Bool
  fmtValue : ℚ → String
  marker : String
  labelOffset : ℚ
  baseEdge : String
  highlightEdge : String
  highlightWidth : ℚ

/-- One series entry: label, value, color. -/
abbrev Entry := String × ℚ × String

/-- Pair up the three parallel lists of a series. -/
def zip3 (labels : List String) (values : List ℚ) (colors : List String) :
    List Entry :=
  labels.zip (values.zip colors)

/-- Order entries by descending value. -/
def descOrder (a b : Entry) : Prop := b.2.1 ≤ a.2.1

instance : DecidableRel descOrder :=
  fun a b => inferInstanceAs (Decidable (b.2.1 ≤ a.2.1))

instance : IsTotal Entry descOrder := ⟨fun a b => le_total b.2.1 a.2.1⟩

instance : IsTrans Entry descOrder := ⟨fun _ _ _ h1 h2 => le_trans h2 h1⟩

/-- Modelled from the spec: the value-sorted order used when
`sort_descending` is set (the source scripts hardcode already-sorted
datasets instead of sorting). -/
def sortDesc (l : List Entry) : List Entry := List.insertionSort descOrder l

/-- The entries in rendered order: value-sorted when the spec asks for it,
input order otherwise. -/
def orderedEntries (spec : ChartSpec) (labels : List String) (values : List ℚ)
    (colors : List String) : List Entry :=
  if spec.sortDescending then sortDesc (zip3 labels values colors)
  else zip3 labels values colors

/-- Build one bar from one entry: highlighted labels get the distinct edge
color and line width (`bars[i].set_edgecolor`, `bars[i].set_linewidth` in
the scripts). -/
def mkBar (spec : ChartSpec) (e : Entry) : Bar :=
  { label := e.1, value := e.2.1, color := e.2.2,
    edgecolor := if e.1 ∈ spec.highlight then spec.highlightEdge else spec.baseEdge,
    linewidth := if e.1 ∈ spec.highlight then spec.highlightWidth else 1 }

/-- The value label of the bar with index `i` and entry `e`: the formatted
value, with the decorative marker appended when the label is highlighted,
placed `labelOffset` beyond the bar's extent. -/
def mkText (spec : ChartSpec) (i : Nat) (e : Entry) : TextAnnot :=
  { pos := e.2.1 + spec.labelOffset, cross := (i : ℚ),
    content := spec.fmtValue e.2.1 ++
      (if e.1 ∈ spec.highlight then spec.marker else "") }

/-- The figure a chart render produces from its ordered entries. -/
def mkImage (spec : ChartSpec) (entries : List Entry) : Image :=
  { bars := entries.map (mkBar spec),
    texts := entries.enum.map (fun p => mkText spec p.1 p.2),
    title := spec.title, axisLabel := spec.axisLabel, lim := spec.lim }

/-- Write one finished figure: `w` tells which paths are writable (the
external collaborator's failure mode). -/
def saveChart (path : String) (img : Image) (w : String → Bool)
    (fs : FileSystem) : Except RenderError FileSystem :=
  if w path then .ok (savefig fs path img) else .error .ioFailure

/-- Modelled from the spec: `ChartRenderer.render(series, spec,
output_path)`. The repository has no such function; each script inlines
this pipeline with literal data (bar call, value-label loop, highlight
styling, `savefig`). Length validation comes first: matplotlib's bar
functions reject parallel lists of different lengths before anything is
drawn or written, which the spec names the `InvalidSeries` condition. -/
def render (labels : List String) (values : List ℚ) (colors : List String)
    (spec : ChartSpec) (path : String) (w : String → Bool)
    (fs : FileSystem) : Except RenderError FileSystem :=
  if labels.length = values.length ∧ values.length = colors.length then
    saveChart path (mkImage spec (orderedEntries spec labels values colors)) w fs
  else .error .invalidSeries

/-- The filesystem after a render call: the new one on success, the old one
unchanged on failure. -/
def fsAfter (r : Except RenderError FileSystem) (fs : FileSystem) : FileSystem :=
  match r with
  | .ok g => g
  | .error _ => fs

/-- Process exit code of a script run: 0 on success, nonzero on a
propagated error. -/
def exitCode (r : Except RenderError FileSystem) : Nat :=
  match r with
  | .ok _ => 0
  | .error _ => 1

/-- The always-writable filesystem oracle. -/
def wTrue : String → Bool := fun _ => true

/-- Integer value label in megabytes per second, as the scripts format
whole-number speeds. -/
def mbLabel (v : ℚ) : String := toString v.num ++ " MB/s"

namespace GenerateCharts

/-! Embedding of `cppcon2025/generate_charts.py`: three horizontal bar
charts written to hardcoded absolute paths. -/

def libraries : List String :=
  ["nlohmann::json", "RapidJSON", "Serde (Rust)", "yyjson"]

def speeds : List ℚ := [242, 497, 1343, 2074]

def colors : List String := ["#2E86AB", "#A23B72", "#F18F01", "#C73E1D"]

def chart1Spec : ChartSpec :=
  { title := "Current JSON Serialization Landscape",
    axisLabel := "Speed (MB/s)", lim := some (0, 2500),
    highlight := [], sortDescending := false,
    fmtValue := mbLabel, marker := " ⭐", labelOffset := 50,
    baseEdge := "none", highlightEdge := "gold", highlightWidth := 3 }

def path1 : String :=
  "/Users/random_person/Desktop/simdjson_talks/cppcon2025/images/perf_landscape.png"

def libraries_with_simdjson : List String :=
  ["nlohmann::json", "RapidJSON", "Serde (Rust)", "yyjson", "simdjson"]

def speeds_with_simdjson : List ℚ := [242, 497, 1343, 2074, 3435]

def colors_with_simdjson : List String :=
  ["#2E86AB", "#A23B72", "#F18F01", "#C73E1D", "#00A878"]

def chart2Spec : ChartSpec :=
  { title := "JSON Serialization Performance Comparison",
    axisLabel := "Speed (MB/s)", lim := some (0, 4000),
    highlight := ["simdjson"], sortDescending := false,
    fmtValue := mbLabel, marker := " ⭐", labelOffset := 50,
    baseEdge := "none", highlightEdge := "gold", highlightWidth := 3 }

def path2 : String :=
  "/Users/random_person/Desktop/simdjson_talks/cppcon2025/images/perf_with_simdjson.png"

def libraries_sorted : List String :=
  ["simdjson", "yyjson", "Serde (Rust)", "RapidJSON", "nlohmann::json"]

def speeds_sorted : List ℚ := [3435, 2074, 1343, 497, 242]

def colors_sorted : List String :=
  ["#00A878", "#C73E1D", "#F18F01", "#A23B72", "#2E86AB"]

def chart3Spec : ChartSpec :=
  { title := "Twitter Dataset (631KB) - Serialization Performance",
    axisLabel := "Speed (MB/s)", lim := some (0, 4000),
    highlight := ["simdjson"], sortDescending := false,
    fmtValue := mbLabel, marker := " ⭐", labelOffset := 50,
    baseEdge := "none", highlightEdge := "gold", highlightWidth := 3 }

def path3 : String :=
  "/Users/random_person/Desktop/simdjson_talks/cppcon2025/images/perf_comparison.png"

/-- The script: three chart renders in sequence; any collaborator failure
aborts the run and propagates. -/
def script (w : String → Bool) (fs : FileSystem) :
    Except RenderError FileSystem := do
  let fs1 ← render libraries speeds colors chart1Spec path1 w fs
  let fs2 ← render libraries_with_simdjson speeds_with_simdjson
    colors_with_simdjson chart2Spec path2 w fs1
  render libraries_sorted speeds_sorted colors_sorted chart3Spec path3 w fs2

end GenerateCharts

namespace Barsimdjson

/-! Embedding of `cppcon2025/images/barsimdjson.py`: one vertical bar chart
of per-processor throughput, value labels formatted to two significant
digits. -/

def processors : List String :=
  ["AMD Ryzen 9 9950X3D", "Intel Core Ultra 9 285K",
   "Snapdragon X Elite X1E78100", "ARMv8 Neoverse-V2 72-Core"]

def gb_per_second : List ℚ := [13.64, 10.07, 4.27, 4.06]

def colors : List String := ["#FF6F61", "#0655F1", "#2ECC71", "#2ECC71"]

/-- Embeds the Python format specifier `.2g` (two significant digits, as
in the script's data-label f-string) for positive rationals below 100, the
range of this script's data: values of ten or more round to a whole
number, smaller ones round to one digit after the point, and a trailing
zero after the point is dropped. None of the script's values is an exact
midpoint, so nearest rounding here agrees with the collaborator's
correctly-rounded output. -/
def format2g (q : ℚ) : String :=
  if q < 10 then
    let n : ℤ := ⌊q * 10 + 1 / 2⌋
    if n % 10 = 0 then toString (n / 10)
    else toString (n / 10) ++ "." ++ toString (n % 10)
  else toString ⌊q + (1 : ℚ) / 2⌋

/-- The data label drawn above each bar: the value to two significant
digits followed by a gigabytes-per-second unit. -/
def gbLabel (v : ℚ) : String := format2g v ++ " GB/s"

def spec : ChartSpec :=
  { title := "",
    axisLabel := "Throughput (GB/s)", lim := none,
    highlight := [], sortDescending := false,
    fmtValue := gbLabel, marker := "", labelOffset := 0.2,
    baseEdge := "black", highlightEdge := "black", highlightWidth := 3 }

def path : String := "simdjson_benchmark.png"

/-- The script: a single chart render. -/
def script (w : String → Bool) (fs : FileSystem) :
    Except RenderError FileSystem :=
  render processors gb_per_second colors spec path w fs

end Barsimdjson

namespace GeneratePerfCharts

/-! Embedding of `cppcon2025/images/generate_perf_charts.py`: three
vertical bar charts written to relative paths. Each chart also carries a
per-bar language annotation and two corner captions; those extra text rows
sit 150 or 180 units above the bar (the value labels sit 50 above), which
is the offset the axis-limit facts below account for. -/

def libraries_landscape : List String :=
  ["nlohmann::json", "RapidJSON", "Serde (Rust)", "yyjson"]

def speeds_landscape : List ℚ := [174, 529, 1710, 1909]

def colors_landscape : List String :=
  ["#8B8680", "#6495ED", "#FF6F61", "#2ECC71"]

def chart1Spec : ChartSpec :=
  { title := "Current JSON Serialization Landscape",
    axisLabel := "Throughput (MB/s)", lim := some (0, 2500),
    highlight := [], sortDescending := false,
    fmtValue := mbLabel, marker := " ", labelOffset := 50,
    baseEdge := "black", highlightEdge := "#FF0000", highlightWidth := 3 }

def path1 : String := "perf_landscape.png"

def libraries_with : List String :=
  ["nlohmann::json", "RapidJSON", "Serde (Rust)", "yyjson", "simdjson"]

def speeds_with : List ℚ := [174, 529, 1710, 1909, 3598]

def colors_with : List String :=
  ["#8B8680", "#6495ED", "#FF6F61", "#2ECC71", "#FFD700"]

def chart2Spec : ChartSpec :=
  { title := "JSON Serialization Performance",
    axisLabel := "Throughput (MB/s)", lim := some (0, 4000),
    highlight := ["simdjson"], sortDescending := false,
    fmtValue := mbLabel, marker := " ", labelOffset := 50,
    baseEdge := "black", highlightEdge := "#FF0000", highlightWidth := 3 }

def path2 : String := "perf_with_simdjson.png"

def speeds_parsing : List ℚ := [172, 658, 1720, 2637, 4170]

def chart2bSpec : ChartSpec :=
  { title := "JSON Parsing Performance",
    axisLabel := "Throughput (MB/s)", lim := some (0, 4500),
    highlight := ["simdjson"], sortDescending := false,
    fmtValue := mbLabel, marker := " ", labelOffset := 50,
    baseEdge := "black", highlightEdge := "#FF0000", highlightWidth := 3 }

def path2b : String := "perf_with_simdjson_parsing.png"

/-- The script: three chart renders in sequence. -/
def script (w : String → Bool) (fs : FileSystem) :
    Except RenderError FileSystem := do
  let fs1 ← render libraries_landscape speeds_landscape colors_landscape
    chart1Spec path1 w fs
  let fs2 ← render libraries_with speeds_with colors_with
    chart2Spec path2 w fs1
  render libraries_with speeds_parsing colors_with chart2bSpec path2b w fs2

end GeneratePerfCharts

namespace GenerateBonusCharts

/-! Embedding of `cppcon2025/images/generate_bonus_charts.py`: two
multi-panel figures written to relative paths. Each figure is abstracted
to an image whose bar list concatenates the panels' bars (the pie panel of
the second figure contributing one bar per wedge); the claims about this
script concern only its literal datasets, its axis limits and its output
paths, all of which appear below exactly as in the source. -/

def field_approaches : List String :=
  ["Manual:\nByte-by-byte", "Reflection:\n64-bit constants"]

def field_instructions : List ℚ := [200, 8]

def field_colors : List String := ["#FF6B6B", "#4ECDC4"]

def ax1_ylim : ℚ := 250

def branch_labels : List String :=
  ["je (equal)", "jne (not equal)", "jb (below)", "ja (above)"]

def branch_colors : List String :=
  ["#FF4444", "#FF6666", "#FF8888", "#FFAAAA"]

def branch_types_manual : List ℚ := [156, 78, 45, 32]

def branch_types_reflection : List ℚ := [10, 5, 3, 2]

def ax2_ylim : ℚ := 350

def total_categories : List String := ["Manual", "Reflection"]

def total_values : List ℚ := [1635, 648]

def total_colors : List String := ["#FF6B6B", "#4ECDC4"]

def ax3_ylim : ℚ := 1800

def mem_categories : List String :=
  ["String\nConcatenation", "Escape\nProcessing", "Memory\nAllocation"]

def manual_mem : List ℚ := [400, 600, 235]

def reflection_mem : List ℚ := [50, 0, 20]

/-- The grouped panels pass one color per group; the collaborator assigns
it to every bar of the group, giving the per-bar default color list. -/
def manual_mem_colors : List String :=
  List.replicate mem_categories.length "#FF6B6B"

def reflection_mem_colors : List String :=
  List.replicate mem_categories.length "#4ECDC4"

def ax4_ylim : ℚ := 700

def dev_metrics : List String :=
  ["Lines of\nC++ Code", "Escape\nLogic\nRequired"]

def manual_scores : List ℚ := [70, 100]

def reflection_scores : List ℚ := [1, 0]

def manual_scores_colors : List String :=
  List.replicate dev_metrics.length "#FF6B6B"

def reflection_scores_colors : List String :=
  List.replicate dev_metrics.length "#4ECDC4"

def ax5_ylim : ℚ := 120

def perf_metrics : List String :=
  ["Total\nInstructions", "Branch\nPredictions", "Cache\nEfficiency",
   "Developer\nProductivity"]

def improvements : List ℚ := [2.5, 15, 10, 43]

def colors6 : List String := ["#FFD700", "#FFA500", "#FF8C00", "#FF4500"]

def ax6_xlim : ℚ := 50

def pie_labels : List String := ["Manual\n1,635 instr", "Reflection\n648 instr"]

def sizes : List ℚ := [1635, 648]

def pie_colors : List String := ["#FF6B6B", "#4ECDC4"]

/-- Edge styling shared by the panels: black edges, no highlight set. -/
def panelSpec : ChartSpec :=
  { title := "Assembly Analysis: Manual vs Reflection Serialization",
    axisLabel := "", lim := none,
    highlight := [], sortDescending := false,
    fmtValue := fun v => toString v.num, marker := "", labelOffset := 5,
    baseEdge := "black", highlightEdge := "black", highlightWidth := 3 }

/-- First figure: the six analysis panels, flattened to one bar list. -/
def fig1 : Image :=
  { bars :=
      (zip3 field_approaches field_instructions field_colors).map (mkBar panelSpec) ++
      (zip3 total_categories total_values total_colors).map (mkBar panelSpec) ++
      (zip3 mem_categories manual_mem manual_mem_colors).map (mkBar panelSpec) ++
      (zip3 mem_categories reflection_mem reflection_mem_colors).map (mkBar panelSpec) ++
      (zip3 dev_metrics manual_scores manual_scores_colors).map (mkBar panelSpec) ++
      (zip3 dev_metrics reflection_scores reflection_scores_colors).map (mkBar panelSpec) ++
      (zip3 perf_metrics improvements colors6).map (mkBar panelSpec),
    texts := [],
    title := "Assembly Analysis: Manual vs Reflection Serialization",
    axisLabel := "", lim := none }

def fig1Path : String := "bonus_instruction_analysis.png"

/-- Second figure: the pie panel (one bar per wedge) next to the text-only
benefits panel. -/
def fig2 : Image :=
  { bars := (zip3 pie_labels sizes pie_colors).map (mkBar panelSpec),
    texts := [],
    title := "Reflection: Better Performance with Less Code",
    axisLabel := "", lim := none }

def fig2Path : String := "bonus_summary.png"

/-- The script: two figure writes in sequence. -/
def script (w : String → Bool) (fs : FileSystem) :
    Except RenderError FileSystem := do
  let fs1 ← saveChart fig1Path fig1 w fs
  saveChart fig2Path fig2 w fs1

end GenerateBonusCharts

/-! ### Helper lemmas shared by the claim theorems -/

/-- A render with matching list lengths reduces to writing the finished
figure. -/
theorem render_eq_of_valid (labels : List String) (values : List ℚ)
    (colors : List String) (spec : ChartSpec) (path : String)
    (w : String → Bool) (fs : FileSystem)
    (h1 : labels.length = values.length) (h2 : values.length = colors.length) :
    render labels values colors spec path w fs
      = saveChart path (mkImage spec (orderedEntries spec labels values colors))
          w fs := by
  simp [render, h1, h2]

/-- The values of a descending-sorted entry list form a non-increasing
chain. -/
theorem chain_ge_sortDesc (l : List Entry) :
    List.Chain' (· ≥ ·) ((sortDesc l).map (fun e => e.2.1)) := by
  rw [List.chain'_iff_pairwise]
  exact (List.sorted_insertionSort descOrder l).map _ (fun a b h => h)

/-- First projections of a three-way zip with matching lengths. -/
theorem zip3_map_label (labels : List String) (values : List ℚ)
    (colors : List String) (h1 : labels.length = values.length)
    (h2 : values.length = colors.length) :
    (zip3 labels values colors).map (fun e => e.1) = labels := by
  have : (zip3 labels values colors).map (fun e => e.1)
      = (labels.zip (values.zip colors)).map Prod.fst := rfl
  rw [this, List.map_fst_zip]
  simp [List.length_zip, ← h1, ← h2]

/-- Value projections of a three-way zip with matching lengths. -/
theorem zip3_map_value (labels : List String) (values : List ℚ)
    (colors : List String) (h1 : labels.length = values.length)
    (h2 : values.length = colors.length) :
    (zip3 labels values colors).map (fun e => e.2.1) = values := by
  have : (zip3 labels values colors).map (fun e => e.2.1)
      = ((labels.zip (values.zip colors)).map Prod.snd).map Prod.fst := by
    simp [List.map_map]; rfl
  rw [this, List.map_snd_zip, List.map_fst_zip]
  · exact h2.le
  · simp [List.length_zip, ← h1, ← h2]

/-- `saveChart` unfolded, for rewriting under binders. -/
theorem saveChart_eq (path : String) (img : Image) (w : String → Bool)
    (fs : FileSystem) :
    saveChart path img w fs
      = if w path then .ok (savefig fs path img) else .error .ioFailure := rfl

/-- Success propagates through the script's sequencing. -/
theorem ok_bind (a : FileSystem)
    (f : FileSystem → Except RenderError FileSystem) :
    (Except.ok a : Except RenderError FileSystem) >>= f = f a := rfl

/-- A failure aborts the rest of the script unchanged. -/
theorem error_bind (e : RenderError)
    (f : FileSystem → Except RenderError FileSystem) :
    (Except.error e : Except RenderError FileSystem) >>= f = .error e := rfl

/-! ### Claim theorems -/

/-- Claim C1: for every series whose labels list and values list have
different lengths, `render` fails with the `InvalidSeries` condition and
leaves every path of the filesystem, the output location included,
unchanged. -/
theorem c1_length_mismatch_invalidSeries
    (labels : List String) (values : List ℚ) (colors : List String)
    (spec : ChartSpec) (path : String) (w : String → Bool) (fs : FileSystem)
    (h : labels.length ≠ values.length) :
    render labels values colors spec path w fs
      = .error .invalidSeries ∧
    ∀ p, fsAfter (render labels values colors spec path w fs) fs p = fs p := by
  have hc : ¬(labels.length = values.length ∧
      values.length = colors.length) := fun hc => h hc.1
  exact ⟨by simp [render, hc], fun p => by simp [render, hc, fsAfter]⟩

/-- Witness for C1: a two-label, one-value series is rejected. -/
theorem c1_length_mismatch_invalidSeries_witness :
    (["a", "b"] : List String).length ≠ ([5] : List ℚ).length ∧
    render ["a", "b"] [5] ["#111111", "#222222"] GenerateCharts.chart1Spec
      "c1.png" wTrue emptyFs = .error .invalidSeries :=
  ⟨by decide,
    (c1_length_mismatch_invalidSeries ["a", "b"] [5] ["#111111", "#222222"]
      GenerateCharts.chart1Spec "c1.png" wTrue emptyFs (by decide)).1⟩

/-- Claim C2: for every rendered chart, if the spec's descending-sort flag
is set then the bar values in rendered order are non-increasing, and if it
is not set then the rendered bars carry exactly the input labels and
values in input order. -/
theorem c2_sort_order
    (labels : List String) (values : List ℚ) (colors : List String)
    (spec : ChartSpec) (path : String) (w : String → Bool) (fs : FileSystem)
    {g : FileSystem} {f : SavedFile}
    (hr : render labels values colors spec path w fs = .ok g)
    (hf : g path = some f) :
    (spec.sortDescending = true →
      List.Chain' (· ≥ ·) (f.image.bars.map Bar.value)) ∧
    (spec.sortDescending = false →
      f.image.bars.map Bar.label = labels ∧
      f.image.bars.map Bar.value = values) := by
  rw [render] at hr
  split at hr
  case isFalse => exact absurd hr (by simp)
  case isTrue hlen =>
    rw [saveChart] at hr
    split at hr
    case isFalse => exact absurd hr (by simp)
    case isTrue hw =>
      have hg : g = savefig fs path
          (mkImage spec (orderedEntries spec labels values colors)) :=
        (Except.ok.inj hr).symm
      rw [hg] at hf
      simp only [savefig, if_pos rfl] at hf
      have hfi : f.image = mkImage spec (orderedEntries spec labels values colors) :=
        congrArg SavedFile.image (Option.some.inj hf).symm
      rw [hfi]
      constructor
      · intro hsort
        simp only [mkImage, orderedEntries, hsort, if_pos rfl, List.map_map]
        exact chain_ge_sortDesc (zip3 labels values colors)
      · intro hsort
        simp only [mkImage, orderedEntries, hsort, Bool.false_eq_true,
          if_neg, List.map_map]
        exact ⟨zip3_map_label labels values colors hlen.1 hlen.2,
          zip3_map_value labels values colors hlen.1 hlen.2⟩

/-- The chart-2 spec with the descending-sort flag set, for the C2
witness. -/
def c2wSpec : ChartSpec := { GenerateCharts.chart2Spec with sortDescending := true }

/-- Witness for C2: sorting the chart-2 dataset of `generate_charts.py`
renders a non-increasing value sequence. -/
theorem c2_sort_order_witness :
    List.Chain' (· ≥ ·)
      ((mkImage c2wSpec (orderedEntries c2wSpec
          GenerateCharts.libraries_with_simdjson
          GenerateCharts.speeds_with_simdjson
          GenerateCharts.colors_with_simdjson)).bars.map Bar.value) :=
  (c2_sort_order GenerateCharts.libraries_with_simdjson
    GenerateCharts.speeds_with_simdjson GenerateCharts.colors_with_simdjson
    c2wSpec "c2.png" wTrue emptyFs rfl rfl).1 rfl

/-- Claim C3: two render calls with identical series, spec and output path
write identical file contents at that path, whatever filesystem each call
starts from — the output is a function of the arguments alone, so no state
flows from one call into the next and repeating a call reproduces its
output byte for byte. -/
theorem c3_idempotent_stateless
    (labels : List String) (values : List ℚ) (colors : List String)
    (spec : ChartSpec) (path : String) (w : String → Bool)
    (fs fs' : FileSystem) {g g' : FileSystem}
    (h : render labels values colors spec path w fs = .ok g)
    (h' : render labels values colors spec path w fs' = .ok g') :
    g path = g' path := by
  rw [render] at h h'
  split at h
  case isFalse => exact absurd h (by simp)
  case isTrue hlen =>
    rw [if_pos hlen, saveChart] at h'
    rw [saveChart] at h
    split at h
    case isFalse => exact absurd h (by simp)
    case isTrue hw =>
      rw [if_pos hw] at h'
      rw [← Except.ok.inj h, ← Except.ok.inj h']
      simp [savefig]

/-- Witness for C3: rendering chart 1 of `generate_charts.py` onto the
output of an identical earlier call reproduces that call's file. -/
theorem c3_idempotent_stateless_witness :
    fsAfter (render GenerateCharts.libraries GenerateCharts.speeds
        GenerateCharts.colors GenerateCharts.chart1Spec "c3.png" wTrue
        (savefig emptyFs "c3.png" (mkImage GenerateCharts.chart1Spec
          (orderedEntries GenerateCharts.chart1Spec GenerateCharts.libraries
            GenerateCharts.speeds GenerateCharts.colors))))
      emptyFs "c3.png"
      = fsAfter (render GenerateCharts.libraries GenerateCharts.speeds
          GenerateCharts.colors GenerateCharts.chart1Spec "c3.png" wTrue
          emptyFs) emptyFs "c3.png" :=
  c3_idempotent_stateless GenerateCharts.libraries GenerateCharts.speeds
    GenerateCharts.colors GenerateCharts.chart1Spec "c3.png" wTrue
    (savefig emptyFs "c3.png" (mkImage GenerateCharts.chart1Spec
      (orderedEntries GenerateCharts.chart1Spec GenerateCharts.libraries
        GenerateCharts.speeds GenerateCharts.colors)))
    emptyFs rfl rfl

namespace C4

/-! The spec's example scenario: a three-entry series rendered with the
chart-2 spec of `generate_charts.py` (simdjson highlighted). -/

def labels : List String := ["nlohmann::json", "RapidJSON", "simdjson"]

def values : List ℚ := [242, 497, 3435]

def colors : List String := ["#2E86AB", "#A23B72", "#00A878"]

def outPath : String := "c4.png"

/-- The file the example scenario's render writes. -/
def file : Option SavedFile :=
  fsAfter (render labels values colors GenerateCharts.chart2Spec outPath
    wTrue emptyFs) emptyFs outPath

/-- The image of that file. -/
def image : Image := (file.map SavedFile.image).getD ⟨[], [], "", "", none⟩

end C4

/-- Claim C4 fails as stated: in the example scenario the highlighted
simdjson bar's value label is the starred string "3435 MB/s ⭐" — the
value-label loop appends the decorative star to the highlighted entry — so
it is not exactly "3435 MB/s". -/
theorem c4_star_label_counterexample :
    (C4.image.texts.map TextAnnot.content).get? 2 = some "3435 MB/s ⭐" ∧
    some "3435 MB/s ⭐" ≠ some "3435 MB/s" := by
  constructor
  · rfl
  · decide

/-- Claim C4 amended: the example scenario yields three labeled bars in
input order, the simdjson bar carries the highlighted border style (gold
edge of width 3), and its value label is "3435 MB/s ⭐" — the formatted
value with the decorative star marker — positioned beyond that bar's
extent. -/
theorem c4_example_scenario_amended :
    C4.image.bars.map Bar.label = C4.labels ∧
    C4.image.bars.map Bar.value = C4.values ∧
    (C4.image.bars.get? 2).map Bar.edgecolor = some "gold" ∧
    (C4.image.bars.get? 2).map Bar.linewidth = some 3 ∧
    (C4.image.texts.get? 2).map TextAnnot.content = some "3435 MB/s ⭐" ∧
    (C4.image.texts.get? 2).map TextAnnot.pos = some (3435 + 50) ∧
    (3435 : ℚ) < 3435 + 50 := by
  refine ⟨rfl, rfl, rfl, rfl, rfl, rfl, by norm_num⟩

/-- Claim C5: every non-empty series with matching label/value/color list
lengths renders successfully onto a writable output path, and the file at
that path afterwards is the rendered figure. -/
theorem c5_valid_series_renders
    (labels : List String) (values : List ℚ) (colors : List String)
    (spec : ChartSpec) (path : String) (w : String → Bool) (fs : FileSystem)
    (_hne : labels ≠ []) (h1 : labels.length = values.length)
    (h2 : values.length = colors.length) (hw : w path = true) :
    render labels values colors spec path w fs
      = .ok (savefig fs path
          (mkImage spec (orderedEntries spec labels values colors))) ∧
    fsAfter (render labels values colors spec path w fs) fs path
      = some ⟨inferFormat path,
          mkImage spec (orderedEntries spec labels values colors)⟩ := by
  have hr := render_eq_of_valid labels values colors spec path w fs h1 h2
  rw [hr, saveChart, if_pos hw]
  exact ⟨rfl, by simp [fsAfter, savefig]⟩

/-- Witness for C5: a series of length 1 renders a single bar and produces
a file at the output path. -/
theorem c5_valid_series_renders_witness :
    (["simdjson"] : List String) ≠ [] ∧
    fsAfter (render ["simdjson"] [3435] ["#00A878"] GenerateCharts.chart1Spec
        "c5.png" wTrue emptyFs) emptyFs "c5.png"
      = some ⟨inferFormat "c5.png", mkImage GenerateCharts.chart1Spec
          (orderedEntries GenerateCharts.chart1Spec ["simdjson"] [3435]
            ["#00A878"])⟩ :=
  ⟨by decide,
    (c5_valid_series_renders ["simdjson"] [3435] ["#00A878"]
      GenerateCharts.chart1Spec "c5.png" wTrue emptyFs (by decide)
      rfl rfl rfl).2⟩

/-- Claim C6: a successful render call writes the rendered figure to
exactly the caller-specified output path — in PNG format whenever the path
carries the png extension — overwriting whatever was there, and leaves
every other path of the filesystem with its previous content. -/
theorem c6_writes_only_output_path
    (labels : List String) (values : List ℚ) (colors : List String)
    (spec : ChartSpec) (path : String) (w : String → Bool) (fs : FileSystem)
    {g : FileSystem}
    (h : render labels values colors spec path w fs = .ok g) :
    g path = some ⟨inferFormat path,
        mkImage spec (orderedEntries spec labels values colors)⟩ ∧
    (path.endsWith ".png" = true → (g path).map SavedFile.format = some "png") ∧
    ∀ p, p ≠ path → g p = fs p := by
  rw [render] at h
  split at h
  case isFalse => exact absurd h (by simp)
  case isTrue hlen =>
    rw [saveChart] at h
    split at h
    case isFalse => exact absurd h (by simp)
    case isTrue hw =>
      rw [← Except.ok.inj h]
      refine ⟨by simp [savefig], ?_, ?_⟩
      · intro hpng
        simp [savefig, inferFormat, hpng]
      · intro p hp
        simp [savefig, hp]

/-- A filesystem already holding an (older, different) file at the C6
witness output path. -/
def c6PreFs : FileSystem :=
  savefig emptyFs "c6.png" ⟨[], [], "stale", "", none⟩

/-- Witness for C6: rendering over an existing file replaces it with the
new figure in PNG format and leaves an unrelated path untouched. -/
theorem c6_writes_only_output_path_witness :
    fsAfter (render ["simdjson"] [3435] ["#00A878"]
        GenerateCharts.chart1Spec "c6.png" wTrue c6PreFs) c6PreFs "c6.png"
      = some ⟨inferFormat "c6.png", mkImage GenerateCharts.chart1Spec
          (orderedEntries GenerateCharts.chart1Spec ["simdjson"] [3435]
            ["#00A878"])⟩ ∧
    fsAfter (render ["simdjson"] [3435] ["#00A878"]
        GenerateCharts.chart1Spec "c6.png" wTrue c6PreFs) c6PreFs "other.png"
      = c6PreFs "other.png" := by
  have h := c6_writes_only_output_path ["simdjson"] [3435] ["#00A878"]
    GenerateCharts.chart1Spec "c6.png" wTrue c6PreFs (g := _) rfl
  exact ⟨h.1, h.2.2 "other.png" (by decide)⟩

/-- Claim C7: in every chart of every script, the label, value and color
lists driving the chart have equal lengths (the grouped panels' single
broadcast color counted once per bar). -/
theorem c7_series_length_invariant :
    (GenerateCharts.libraries.length = GenerateCharts.speeds.length ∧
      GenerateCharts.speeds.length = GenerateCharts.colors.length) ∧
    (GenerateCharts.libraries_with_simdjson.length
        = GenerateCharts.speeds_with_simdjson.length ∧
      GenerateCharts.speeds_with_simdjson.length
        = GenerateCharts.colors_with_simdjson.length) ∧
    (GenerateCharts.libraries_sorted.length
        = GenerateCharts.speeds_sorted.length ∧
      GenerateCharts.speeds_sorted.length
        = GenerateCharts.colors_sorted.length) ∧
    (Barsimdjson.processors.length = Barsimdjson.gb_per_second.length ∧
      Barsimdjson.gb_per_second.length = Barsimdjson.colors.length) ∧
    (GeneratePerfCharts.libraries_landscape.length
        = GeneratePerfCharts.speeds_landscape.length ∧
      GeneratePerfCharts.speeds_landscape.length
        = GeneratePerfCharts.colors_landscape.length) ∧
    (GeneratePerfCharts.libraries_with.length
        = GeneratePerfCharts.speeds_with.length ∧
      GeneratePerfCharts.speeds_with.length
        = GeneratePerfCharts.colors_with.length) ∧
    (GeneratePerfCharts.libraries_with.length
        = GeneratePerfCharts.speeds_parsing.length ∧
      GeneratePerfCharts.speeds_parsing.length
        = GeneratePerfCharts.colors_with.length) ∧
    (GenerateBonusCharts.field_approaches.length
        = GenerateBonusCharts.field_instructions.length ∧
      GenerateBonusCharts.field_instructions.length
        = GenerateBonusCharts.field_colors.length) ∧
    (GenerateBonusCharts.branch_labels.length
        = GenerateBonusCharts.branch_types_manual.length ∧
      GenerateBonusCharts.branch_types_manual.length
        = GenerateBonusCharts.branch_colors.length ∧
      GenerateBonusCharts.branch_types_reflection.length
        = GenerateBonusCharts.branch_colors.length) ∧
    (GenerateBonusCharts.total_categories.length
        = GenerateBonusCharts.total_values.length ∧
      GenerateBonusCharts.total_values.length
        = GenerateBonusCharts.total_colors.length) ∧
    (GenerateBonusCharts.mem_categories.length
        = GenerateBonusCharts.manual_mem.length ∧
      GenerateBonusCharts.manual_mem.length
        = GenerateBonusCharts.manual_mem_colors.length ∧
      GenerateBonusCharts.mem_categories.length
        = GenerateBonusCharts.reflection_mem.length ∧
      GenerateBonusCharts.reflection_mem.length
        = GenerateBonusCharts.reflection_mem_colors.length) ∧
    (GenerateBonusCharts.dev_metrics.length
        = GenerateBonusCharts.manual_scores.length ∧
      GenerateBonusCharts.manual_scores.length
        = GenerateBonusCharts.manual_scores_colors.length ∧
      GenerateBonusCharts.dev_metrics.length
        = GenerateBonusCharts.reflection_scores.length ∧
      GenerateBonusCharts.reflection_scores.length
        = GenerateBonusCharts.reflection_scores_colors.length) ∧
    (GenerateBonusCharts.perf_metrics.length
        = GenerateBonusCharts.improvements.length ∧
      GenerateBonusCharts.improvements.length
        = GenerateBonusCharts.colors6.length) ∧
    (GenerateBonusCharts.pie_labels.length
        = GenerateBonusCharts.sizes.length ∧
      GenerateBonusCharts.sizes.length
        = GenerateBonusCharts.pie_colors.length) := by
  decide

/-- Claim C8: each script is a zero-argument run over the ambient
filesystem: it reads no flags and no environment, its exit code is 0
exactly when the plotting collaborator accepts every one of its output
paths, and any failure surfaces as the collaborator's own error,
propagated without recovery or retry. -/
theorem c8_scripts_exit_codes (w : String → Bool) (fs : FileSystem) :
    ((exitCode (GenerateCharts.script w fs) = 0 ↔
        (w GenerateCharts.path1 && w GenerateCharts.path2
          && w GenerateCharts.path3) = true) ∧
      ∀ e, GenerateCharts.script w fs = .error e → e = .ioFailure) ∧
    ((exitCode (Barsimdjson.script w fs) = 0 ↔ w Barsimdjson.path = true) ∧
      ∀ e, Barsimdjson.script w fs = .error e → e = .ioFailure) ∧
    ((exitCode (GeneratePerfCharts.script w fs) = 0 ↔
        (w GeneratePerfCharts.path1 && w GeneratePerfCharts.path2
          && w GeneratePerfCharts.path2b) = true) ∧
      ∀ e, GeneratePerfCharts.script w fs = .error e → e = .ioFailure) ∧
    ((exitCode (GenerateBonusCharts.script w fs) = 0 ↔
        (w GenerateBonusCharts.fig1Path && w GenerateBonusCharts.fig2Path)
          = true) ∧
      ∀ e, GenerateBonusCharts.script w fs = .error e → e = .ioFailure) := by
  refine ⟨?_, ?_, ?_, ?_⟩
  · have r1 : ∀ fsx, render GenerateCharts.libraries GenerateCharts.speeds
        GenerateCharts.colors GenerateCharts.chart1Spec GenerateCharts.path1
        w fsx
        = saveChart GenerateCharts.path1 (mkImage GenerateCharts.chart1Spec
            (orderedEntries GenerateCharts.chart1Spec GenerateCharts.libraries
              GenerateCharts.speeds GenerateCharts.colors)) w fsx :=
      fun fsx => render_eq_of_valid _ _ _ _ _ _ _ rfl rfl
    have r2 : ∀ fsx, render GenerateCharts.libraries_with_simdjson
        GenerateCharts.speeds_with_simdjson GenerateCharts.colors_with_simdjson
        GenerateCharts.chart2Spec GenerateCharts.path2 w fsx
        = saveChart GenerateCharts.path2 (mkImage GenerateCharts.chart2Spec
            (orderedEntries GenerateCharts.chart2Spec
              GenerateCharts.libraries_with_simdjson
              GenerateCharts.speeds_with_simdjson
              GenerateCharts.colors_with_simdjson)) w fsx :=
      fun fsx => render_eq_of_valid _ _ _ _ _ _ _ rfl rfl
    have r3 : ∀ fsx, render GenerateCharts.libraries_sorted
        GenerateCharts.speeds_sorted GenerateCharts.colors_sorted
        GenerateCharts.chart3Spec GenerateCharts.path3 w fsx
        = saveChart GenerateCharts.path3 (mkImage GenerateCharts.chart3Spec
            (orderedEntries GenerateCharts.chart3Spec
              GenerateCharts.libraries_sorted GenerateCharts.speeds_sorted
              GenerateCharts.colors_sorted)) w fsx :=
      fun fsx => render_eq_of_valid _ _ _ _ _ _ _ rfl rfl
    cases h1 : w GenerateCharts.path1 <;>
      cases h2 : w GenerateCharts.path2 <;>
      cases h3 : w GenerateCharts.path3 <;>
      simp [GenerateCharts.script, r1, r2, r3, saveChart_eq, h1, h2, h3,
        exitCode, ok_bind, error_bind]
  · have r1 : ∀ fsx, render Barsimdjson.processors Barsimdjson.gb_per_second
        Barsimdjson.colors Barsimdjson.spec Barsimdjson.path w fsx
        = saveChart Barsimdjson.path (mkImage Barsimdjson.spec
            (orderedEntries Barsimdjson.spec Barsimdjson.processors
              Barsimdjson.gb_per_second Barsimdjson.colors)) w fsx :=
      fun fsx => render_eq_of_valid _ _ _ _ _ _ _ rfl rfl
    cases h1 : w Barsimdjson.path <;>
      simp [Barsimdjson.script, r1, saveChart_eq, h1, exitCode]
  · have r1 : ∀ fsx, render GeneratePerfCharts.libraries_landscape
        GeneratePerfCharts.speeds_landscape GeneratePerfCharts.colors_landscape
        GeneratePerfCharts.chart1Spec GeneratePerfCharts.path1 w fsx
        = saveChart GeneratePerfCharts.path1
            (mkImage GeneratePerfCharts.chart1Spec
              (orderedEntries GeneratePerfCharts.chart1Spec
                GeneratePerfCharts.libraries_landscape
                GeneratePerfCharts.speeds_landscape
                GeneratePerfCharts.colors_landscape)) w fsx :=
      fun fsx => render_eq_of_valid _ _ _ _ _ _ _ rfl rfl
    have r2 : ∀ fsx, render GeneratePerfCharts.libraries_with
        GeneratePerfCharts.speeds_with GeneratePerfCharts.colors_with
        GeneratePerfCharts.chart2Spec GeneratePerfCharts.path2 w fsx
        = saveChart GeneratePerfCharts.path2
            (mkImage GeneratePerfCharts.chart2Spec
              (orderedEntries GeneratePerfCharts.chart2Spec
                GeneratePerfCharts.libraries_with
                GeneratePerfCharts.speeds_with
                GeneratePerfCharts.colors_with)) w fsx :=
      fun fsx => render_eq_of_valid _ _ _ _ _ _ _ rfl rfl
    have r3 : ∀ fsx, render GeneratePerfCharts.libraries_with
        GeneratePerfCharts.speeds_parsing GeneratePerfCharts.colors_with
        GeneratePerfCharts.chart2bSpec GeneratePerfCharts.path2b w fsx
        = saveChart GeneratePerfCharts.path2b
            (mkImage GeneratePerfCharts.chart2bSpec
              (orderedEntries GeneratePerfCharts.chart2bSpec
                GeneratePerfCharts.libraries_with
                GeneratePerfCharts.speeds_parsing
                GeneratePerfCharts.colors_with)) w fsx :=
      fun fsx => render_eq_of_valid _ _ _ _ _ _ _ rfl rfl
    cases h1 : w GeneratePerfCharts.path1 <;>
      cases h2 : w GeneratePerfCharts.path2 <;>
      cases h3 : w GeneratePerfCharts.path2b <;>
      simp [GeneratePerfCharts.script, r1, r2, r3, saveChart_eq, h1, h2, h3,
        exitCode, ok_bind, error_bind]
  · cases h1 : w GenerateBonusCharts.fig1Path <;>
      cases h2 : w GenerateBonusCharts.fig2Path <;>
      simp [GenerateBonusCharts.script, saveChart_eq, h1, h2,
        exitCode, ok_bind, error_bind]

/-- Witness for C8: with every path writable the first script exits with
code 0; with no path writable the single-chart script exits nonzero. -/
theorem c8_scripts_exit_codes_witness :
    exitCode (GenerateCharts.script wTrue emptyFs) = 0 ∧
    exitCode (Barsimdjson.script (fun _ => false) emptyFs) ≠ 0 := by
  refine ⟨(c8_scripts_exit_codes wTrue emptyFs).1.1.mpr rfl, fun h0 => ?_⟩
  have hb := (c8_scripts_exit_codes (fun _ => false) emptyFs).2.1.1.mp h0
  simp at hb

/-- Claim C9: in `barsimdjson.py` each bar's data label is its value
formatted to two significant digits with the gigabytes-per-second unit
appended, so the stored 13.64 is displayed as "14 GB/s", and the displayed
label is not in general the stored numeric value. -/
theorem c9_two_significant_digit_labels :
    Barsimdjson.gb_per_second.map Barsimdjson.gbLabel
      = ["14 GB/s", "10 GB/s", "4.3 GB/s", "4.1 GB/s"] ∧
    Barsimdjson.gbLabel (13.64 : ℚ) = "14 GB/s" ∧
    Barsimdjson.gbLabel (13.64 : ℚ) ≠ "13.64 GB/s" := by
  refine ⟨?_, ?_, ?_⟩
  · norm_num [Barsimdjson.gb_per_second, Barsimdjson.gbLabel,
      Barsimdjson.format2g, Int.floor_eq_iff]
    exact ⟨rfl, rfl, rfl, rfl⟩
  · norm_num [Barsimdjson.gbLabel, Barsimdjson.format2g, Int.floor_eq_iff]
    rfl
  · norm_num [Barsimdjson.gbLabel, Barsimdjson.format2g, Int.floor_eq_iff]
    decide

/-- Claim C10: every explicitly set value-axis limit strictly exceeds the
maximum bar value of its chart (the stacked panel's stacked totals
included), and every value label — placed at its bar's value plus the
chart's text offset, the largest such offset for charts with two text
rows — stays strictly inside the plotted range. -/
theorem c10_axis_limits_exceed_data :
    (GenerateCharts.chart1Spec.lim = some (0, 2500) ∧
      GenerateCharts.speeds.foldr max 0 < 2500 ∧
      GenerateCharts.speeds.foldr max 0 + 50 < 2500) ∧
    (GenerateCharts.chart2Spec.lim = some (0, 4000) ∧
      GenerateCharts.speeds_with_simdjson.foldr max 0 < 4000 ∧
      GenerateCharts.speeds_with_simdjson.foldr max 0 + 50 < 4000) ∧
    (GenerateCharts.chart3Spec.lim = some (0, 4000) ∧
      GenerateCharts.speeds_sorted.foldr max 0 < 4000 ∧
      GenerateCharts.speeds_sorted.foldr max 0 + 50 < 4000) ∧
    (GeneratePerfCharts.chart1Spec.lim = some (0, 2500) ∧
      GeneratePerfCharts.speeds_landscape.foldr max 0 < 2500 ∧
      GeneratePerfCharts.speeds_landscape.foldr max 0 + 150 < 2500) ∧
    (GeneratePerfCharts.chart2Spec.lim = some (0, 4000) ∧
      GeneratePerfCharts.speeds_with.foldr max 0 < 4000 ∧
      GeneratePerfCharts.speeds_with.foldr max 0 + 180 < 4000) ∧
    (GeneratePerfCharts.chart2bSpec.lim = some (0, 4500) ∧
      GeneratePerfCharts.speeds_parsing.foldr max 0 < 4500 ∧
      GeneratePerfCharts.speeds_parsing.foldr max 0 + 180 < 4500) ∧
    (GenerateBonusCharts.field_instructions.foldr max 0
        < GenerateBonusCharts.ax1_ylim ∧
      GenerateBonusCharts.field_instructions.foldr max 0 + 5
        < GenerateBonusCharts.ax1_ylim) ∧
    (GenerateBonusCharts.branch_types_manual.sum
        < GenerateBonusCharts.ax2_ylim ∧
      GenerateBonusCharts.branch_types_reflection.sum
        < GenerateBonusCharts.ax2_ylim) ∧
    (GenerateBonusCharts.total_values.foldr max 0
        < GenerateBonusCharts.ax3_ylim ∧
      GenerateBonusCharts.total_values.foldr max 0 + 20
        < GenerateBonusCharts.ax3_ylim) ∧
    (GenerateBonusCharts.manual_mem.foldr max 0 + 10
        < GenerateBonusCharts.ax4_ylim ∧
      GenerateBonusCharts.reflection_mem.foldr max 0 + 10
        < GenerateBonusCharts.ax4_ylim) ∧
    (GenerateBonusCharts.manual_scores.foldr max 0 + 2
        < GenerateBonusCharts.ax5_ylim ∧
      GenerateBonusCharts.reflection_scores.foldr max 0 + 2
        < GenerateBonusCharts.ax5_ylim) ∧
    (GenerateBonusCharts.improvements.foldr max 0
        < GenerateBonusCharts.ax6_xlim ∧
      GenerateBonusCharts.improvements.foldr max 0 + 0.5
        < GenerateBonusCharts.ax6_xlim) := by
  norm_num [GenerateCharts.chart1Spec, GenerateCharts.chart2Spec,
    GenerateCharts.chart3Spec, GenerateCharts.speeds,
    GenerateCharts.speeds_with_simdjson, GenerateCharts.speeds_sorted,
    GeneratePerfCharts.chart1Spec, GeneratePerfCharts.chart2Spec,
    GeneratePerfCharts.chart2bSpec, GeneratePerfCharts.speeds_landscape,
    GeneratePerfCharts.speeds_with, GeneratePerfCharts.speeds_parsing,
    GenerateBonusCharts.field_instructions, GenerateBonusCharts.ax1_ylim,
    GenerateBonusCharts.branch_types_manual,
    GenerateBonusCharts.branch_types_reflection, GenerateBonusCharts.ax2_ylim,
    GenerateBonusCharts.total_values, GenerateBonusCharts.ax3_ylim,
    GenerateBonusCharts.manual_mem, GenerateBonusCharts.reflection_mem,
    GenerateBonusCharts.ax4_ylim, GenerateBonusCharts.manual_scores,
    GenerateBonusCharts.reflection_scores, GenerateBonusCharts.ax5_ylim,
    GenerateBonusCharts.improvements, GenerateBonusCharts.ax6_xlim]

end Charts
